import Mathlib

/-!
Shallow embedding of the FlowState flowchart validation/repair pipeline
(`src/server/flowchartService.js`) and of the client layout helpers
(`src/src/components/FlowNode.jsx`), with theorems checking the spec's
claims about them.

Conventions:
* JS strings are Lean `String`s; `.length`, `.toLower`, `.trim`, `.take`
  mirror the corresponding JS operations on the ASCII data used here.
* zod schemas are embedded as parse functions returning `Option` (success
  with defaults applied, or failure); a thrown `ZodError` is `none`.
* JS `Set`/`Map` used by the repair loop are embedded as lists: membership
  for the set, and front-insertion with first-match lookup for the map
  (front insertion makes lookup return the most recently set binding,
  matching `Map.get`).
-/

namespace FlowState

/-- JS truthiness for an optional string: `undefined` and `""` are falsy. -/
def jsTruthyStr (s : Option String) : Bool :=
  match s with
  | none => false
  | some v => !v.isEmpty

/-- JS `a || b` on strings: `a` when non-empty, else `b`. -/
def jsOrStr (a b : String) : String :=
  if a.isEmpty then b else a

def charsStartWith : List Char → List Char → Bool
  | _, [] => true
  | [], _ :: _ => false
  | a :: as, b :: bs => a == b && charsStartWith as bs

def charsHasSub : List Char → List Char → Bool
  | [], sub => sub.isEmpty
  | a :: rest, sub => charsStartWith (a :: rest) sub || charsHasSub rest sub

/-- JS `String.prototype.includes` (substring test). -/
def jsIncludes (s sub : String) : Bool :=
  charsHasSub s.toList sub.toList

/-- JS `String.prototype.toLowerCase` on the ASCII data used here,
implemented characterwise so that it evaluates by kernel reduction. -/
def jsToLower (s : String) : String :=
  String.mk (s.toList.map Char.toLower)

/-- JS `String.prototype.trim` (whitespace stripped from both ends),
implemented on the character list. -/
def jsTrim (s : String) : String :=
  String.mk (((s.toList.dropWhile Char.isWhitespace).reverse.dropWhile
    Char.isWhitespace).reverse)

/-- JS `String.prototype.slice(0, n)` / truncation to the first `n` chars. -/
def jsTake (s : String) (n : Nat) : String :=
  String.mk (s.toList.take n)

/-- A character matched by `[a-z0-9]` (the sanitizer runs after `toLowerCase`). -/
def isLowerAlnum (c : Char) : Bool :=
  ('a' ≤ c && c ≤ 'z') || ('0' ≤ c && c ≤ '9')

/-- JS `replace(/[^a-z0-9]+/g, "-")`: each maximal run of non-alphanumeric
characters becomes a single hyphen.  The `Bool` flag records whether the
previous character was part of such a run. -/
def collapseRunsAux : Bool → List Char → List Char
  | _, [] => []
  | prevRun, c :: rest =>
    if isLowerAlnum c then c :: collapseRunsAux false rest
    else if prevRun then collapseRunsAux true rest
    else '-' :: collapseRunsAux true rest

/-- JS `replace(/^-+|-+$/g, "")`: strip leading and trailing hyphens. -/
def trimHyphens (l : List Char) : List Char :=
  ((l.dropWhile (· == '-')).reverse.dropWhile (· == '-')).reverse

/-- The function `sanitizeId` from `flowchartService.js`: lowercase, collapse
non-alphanumeric runs to hyphens, trim hyphens, truncate to 50 chars,
and fall back when empty. -/
def sanitizeId (value : String) (fallback : String) : String :=
  let safe := (trimHyphens (collapseRunsAux false (jsToLower value).toList)).take 50
  if safe.isEmpty then fallback else String.mk safe

/-- A character matched by `[0-9a-f]` case-insensitively. -/
def isHexDigit (c : Char) : Bool :=
  ('0' ≤ c && c ≤ '9') || ('a' ≤ c && c ≤ 'f') || ('A' ≤ c && c ≤ 'F')

/-- The pattern `HEX_COLOR_REGEX = /^#([0-9a-f]{6})$/i`. -/
def isHexColor (s : String) : Bool :=
  match s.toList with
  | '#' :: rest => rest.length == 6 && rest.all isHexDigit
  | _ => false

/-- The 8-value node type enumeration (`NODE_TYPES`). -/
def NODE_TYPES : List String :=
  ["start", "process", "decision", "data", "subprocess", "end", "actor", "document"]

/-- Per-node-type color slots of a palette. -/
structure NodeColors where
  start : String
  process : String
  decision : String
  data : String
  subprocess : String
  «end» : String
  actor : String
  document : String
deriving DecidableEq, Repr

/-- A validated palette (output of the palette schema). -/
structure Palette where
  name : String
  canvas : String
  panel : String
  text : String
  mutedText : String
  edge : String
  accent : String
  nodeColors : NodeColors
deriving DecidableEq, Repr

/-- The constant `DEFAULT_PALETTE` ("Clean Blueprint"). -/
def DEFAULT_PALETTE : Palette :=
  { name := "Clean Blueprint"
    canvas := "#eef3ff"
    panel := "#ffffff"
    text := "#1e2b43"
    mutedText := "#5d6e90"
    edge := "#48658f"
    accent := "#0f8b8d"
    nodeColors :=
      { start := "#2a9d8f", process := "#4f7cff", decision := "#f4a261"
        data := "#e76f51", subprocess := "#9b7de6", «end» := "#e63973"
        actor := "#22b8b0", document := "#e9c46a" } }

/-- A raw (unvalidated) `nodeColors` object; absent fields take schema defaults. -/
structure RawNodeColors where
  start : Option String
  process : Option String
  decision : Option String
  data : Option String
  subprocess : Option String
  «end» : Option String
  actor : Option String
  document : Option String
deriving DecidableEq, Repr

/-- A raw (unvalidated) palette candidate; absent fields take schema defaults,
but the `nodeColors` object itself is required by the schema. -/
structure RawPalette where
  name : Option String
  canvas : Option String
  panel : Option String
  text : Option String
  mutedText : Option String
  edge : Option String
  accent : Option String
  nodeColors : Option RawNodeColors
deriving DecidableEq, Repr

/-- One color slot of `paletteSchema`: `z.string().regex(HEX).default(dflt)`. -/
def parseColorField (v : Option String) (dflt : String) : Option String :=
  match v with
  | none => some dflt
  | some s => if isHexColor s then some s else none

/-- The `name` slot: `z.string().min(2).max(80).default(DEFAULT_PALETTE.name)`. -/
def parseNameField (v : Option String) : Option String :=
  match v with
  | none => some DEFAULT_PALETTE.name
  | some s => if 2 ≤ s.length && s.length ≤ 80 then some s else none

/-- The `nodeColors` sub-schema of `paletteSchema`: all eight slots must
validate (each defaulting when absent), or the whole object fails. -/
def parseNodeColors (nc : RawNodeColors) : Option NodeColors :=
  match parseColorField nc.start DEFAULT_PALETTE.nodeColors.start,
      parseColorField nc.process DEFAULT_PALETTE.nodeColors.process,
      parseColorField nc.decision DEFAULT_PALETTE.nodeColors.decision,
      parseColorField nc.data DEFAULT_PALETTE.nodeColors.data,
      parseColorField nc.subprocess DEFAULT_PALETTE.nodeColors.subprocess,
      parseColorField nc.«end» DEFAULT_PALETTE.nodeColors.«end»,
      parseColorField nc.actor DEFAULT_PALETTE.nodeColors.actor,
      parseColorField nc.document DEFAULT_PALETTE.nodeColors.document with
  | some s, some pr, some de, some da, some su, some en, some ac, some doc =>
    some { start := s, process := pr, decision := de, data := da
           subprocess := su, «end» := en, actor := ac, document := doc }
  | _, _, _, _, _, _, _, _ => none

/-- The schema check `paletteSchema.safeParse` (success as `some`, failure as `none`):
the validation is one pass over all fields — any failing field fails the
whole candidate. -/
def parsePalette (raw : RawPalette) : Option Palette :=
  match raw.nodeColors with
  | none => none
  | some ncRaw =>
    match parseNameField raw.name,
        parseColorField raw.canvas DEFAULT_PALETTE.canvas,
        parseColorField raw.panel DEFAULT_PALETTE.panel,
        parseColorField raw.text DEFAULT_PALETTE.text,
        parseColorField raw.mutedText DEFAULT_PALETTE.mutedText,
        parseColorField raw.edge DEFAULT_PALETTE.edge,
        parseColorField raw.accent DEFAULT_PALETTE.accent,
        parseNodeColors ncRaw with
    | some name, some canvas, some panel, some text, some mutedText,
        some edge, some accent, some nodeColors =>
      some { name, canvas, panel, text, mutedText, edge, accent, nodeColors }
    | _, _, _, _, _, _, _, _ => none

/-- A `Palette` value written back as a fully-populated raw candidate
(every field present), as happens when a palette object is re-fed to
`safeParse`. -/
def paletteToRaw (p : Palette) : RawPalette :=
  { name := some p.name, canvas := some p.canvas, panel := some p.panel
    text := some p.text, mutedText := some p.mutedText, edge := some p.edge
    accent := some p.accent
    nodeColors := some
      { start := some p.nodeColors.start, process := some p.nodeColors.process
        decision := some p.nodeColors.decision, data := some p.nodeColors.data
        subprocess := some p.nodeColors.subprocess, «end» := some p.nodeColors.«end»
        actor := some p.nodeColors.actor, document := some p.nodeColors.document } }

/-- The value `DEFAULT_PALETTE` as the raw object the JS code holds. -/
def defaultRawPalette : RawPalette := paletteToRaw DEFAULT_PALETTE

/-- The function `normalizePalette(rawPalette, fallbackPalette = DEFAULT_PALETTE)`:
try the candidate (`rawPalette || fallbackPalette`), and on any validation
failure substitute the parsed hardcoded default wholesale. -/
def normalizePalette (rawPalette : Option RawPalette)
    (fallbackPalette : RawPalette := defaultRawPalette) : Palette :=
  let attemptedPalette := rawPalette.getD fallbackPalette
  match parsePalette attemptedPalette with
  | some p => p
  | none =>
    match parsePalette defaultRawPalette with
    | some p => p
    | none => DEFAULT_PALETTE

/-- A node record after schema parsing (defaults applied).  The repaired
nodes produced by `normalizeFlowchart` have the same shape. -/
structure NodeSpec where
  id : String
  label : String
  type : String
  details : String
  notes : String
deriving DecidableEq, Repr

/-- An edge record after schema parsing; `id` is optional with no default. -/
structure ParsedEdge where
  id : Option String
  source : String
  target : String
  label : String
  condition : String
deriving DecidableEq, Repr

/-- A repaired edge (id always assigned). -/
structure EdgeSpec where
  id : String
  source : String
  target : String
  label : String
  condition : String
deriving DecidableEq, Repr

/-- A raw node record as fed to `flowchartSchema`. -/
structure RawNode where
  id : String
  label : String
  type : String
  details : Option String
  notes : Option String
deriving DecidableEq, Repr

/-- A raw edge record as fed to `flowchartSchema`. -/
structure RawEdge where
  id : Option String
  source : Option String
  target : Option String
  label : Option String
  condition : Option String
deriving DecidableEq, Repr

/-- A raw flowchart document as fed to `flowchartSchema.parse`.
The palette is kept in raw form; the schema only checks that it validates
when present (re-parsing a parsed palette is the identity, so downstream
`normalizePalette` behaves identically on the raw form). -/
structure RawFlowchart where
  title : String
  summary : String
  rationale : String
  suggestions : Option (List String)
  nodes : List RawNode
  edges : List RawEdge
  palette : Option RawPalette
deriving DecidableEq, Repr

/-- A flowchart document after `flowchartSchema.parse`. -/
structure ParsedFlowchart where
  title : String
  summary : String
  rationale : String
  suggestions : List String
  nodes : List NodeSpec
  edges : List ParsedEdge
  palette : Option RawPalette
deriving DecidableEq, Repr

/-- The canonical repaired document returned by `normalizeFlowchart`. -/
structure Flowchart where
  title : String
  summary : String
  rationale : String
  suggestions : List String
  palette : Palette
  nodes : List NodeSpec
  edges : List EdgeSpec
  sourcePrompt : String
deriving DecidableEq, Repr

/-- The per-node validator of `flowchartSchema`:
id 1–60, label 1–120, type in the enumeration, details ≤350 (default `""`),
notes ≤220 (default `""`). -/
def parseNode (n : RawNode) : Option NodeSpec :=
  let details := n.details.getD ""
  let notes := n.notes.getD ""
  if 1 ≤ n.id.length && n.id.length ≤ 60
      && 1 ≤ n.label.length && n.label.length ≤ 120
      && NODE_TYPES.contains n.type
      && details.length ≤ 350 && notes.length ≤ 220 then
    some { id := n.id, label := n.label, type := n.type, details := details, notes := notes }
  else none

/-- The per-edge validator of `flowchartSchema`:
id optional ≤80, source/target 1–60, label ≤120 (default `""`),
condition ≤120 (default `""`). -/
def parseEdge (e : RawEdge) : Option ParsedEdge :=
  let label := e.label.getD ""
  let condition := e.condition.getD ""
  match e.source, e.target with
  | some source, some target =>
    if (match e.id with | none => true | some i => i.length ≤ 80)
        && 1 ≤ source.length && source.length ≤ 60
        && 1 ≤ target.length && target.length ≤ 60
        && label.length ≤ 120 && condition.length ≤ 120 then
      some { id := e.id, source := source, target := target, label := label, condition := condition }
    else none
  | _, _ => none

/-- The optional-palette slot of `flowchartSchema` and `refineInputSchema`:
absent is fine, a present palette must validate. -/
def parseOptPalette (v : Option RawPalette) : Option (Option RawPalette) :=
  match v with
  | none => some none
  | some p =>
    match parsePalette p with
    | none => none
    | some _ => some (some p)

/-- The schema check `flowchartSchema.parse` (`none` models a thrown `ZodError`). -/
def parseFlowchart (raw : RawFlowchart) : Option ParsedFlowchart :=
  let suggestions := raw.suggestions.getD []
  if 3 ≤ raw.title.length && raw.title.length ≤ 140
      && 10 ≤ raw.summary.length && raw.summary.length ≤ 1000
      && 10 ≤ raw.rationale.length && raw.rationale.length ≤ 1200
      && suggestions.length ≤ 8
      && suggestions.all (fun s => 2 ≤ s.length && s.length ≤ 160) then
    match raw.nodes.mapM parseNode, raw.edges.mapM parseEdge, parseOptPalette raw.palette with
    | some nodes, some edges, some palette =>
      if 2 ≤ nodes.length && nodes.length ≤ 35 && edges.length ≤ 90 then
        some { title := raw.title, summary := raw.summary, rationale := raw.rationale
               suggestions := suggestions, nodes := nodes, edges := edges, palette := palette }
      else none
    | _, _, _ => none
  else none

/-- The node-id assignment loop of `normalizeFlowchart`: per node, sanitize
the id with fallback `node-{1-based index}`; if the candidate is already in
the used set, append `-{1-based index}`; record the candidate in the used
set and in the original→sanitized map.  Returns the renamed nodes and the
final map (front insertion = latest binding wins on lookup). -/
def assignIdsAux : Nat → List String → List (String × String) → List NodeSpec →
    List NodeSpec × List (String × String)
  | _, _, idMap, [] => ([], idMap)
  | index, usedIds, idMap, node :: rest =>
    let candidate0 := sanitizeId node.id ("node-" ++ toString (index + 1))
    let candidate :=
      if usedIds.contains candidate0 then candidate0 ++ "-" ++ toString (index + 1)
      else candidate0
    let next := assignIdsAux (index + 1) (candidate :: usedIds) ((node.id, candidate) :: idMap) rest
    ({ node with id := candidate } :: next.1, next.2)

/-- The repaired node list (before terminal enforcement) and the id remap
table, as built by the `parsed.nodes.map` pass. -/
def repairNodes (parsed : ParsedFlowchart) : List NodeSpec × List (String × String) :=
  assignIdsAux 0 [] [] parsed.nodes

/-- JS `idMap.get(key)` (latest binding wins). -/
def lookupIdMap (idMap : List (String × String)) (key : String) : Option String :=
  match idMap.find? (fun kv => kv.1 == key) with
  | some kv => some kv.2
  | none => none

/-- The edge remap/drop/id-assignment pass of `normalizeFlowchart`. -/
def processEdges (edges : List ParsedEdge) (idMap : List (String × String))
    (validIds : List String) : List EdgeSpec :=
  (edges.enum.map (fun ie =>
    let index := ie.1
    let edge := ie.2
    let source := (lookupIdMap idMap edge.source).getD (sanitizeId edge.source "")
    let target := (lookupIdMap idMap edge.target).getD (sanitizeId edge.target "")
    if validIds.contains source && validIds.contains target then
      let edgeId :=
        if jsTruthyStr edge.id then sanitizeId (edge.id.getD "") ("edge-" ++ toString (index + 1))
        else "edge-" ++ source ++ "-" ++ target ++ "-" ++ toString (index + 1)
      some { id := edgeId, source := source, target := target
             label := edge.label, condition := edge.condition }
    else none)).filterMap id

/-- The edge list after remapping and dropping, before the connectivity
fallback is considered. -/
def repairPreChainEdges (parsed : ParsedFlowchart) : List EdgeSpec :=
  processEdges parsed.edges (repairNodes parsed).2 ((repairNodes parsed).1.map NodeSpec.id)

/-- The mutation `nodes[0].type = "start"`. -/
def setHeadTypeStart : List NodeSpec → List NodeSpec
  | [] => []
  | n :: rest => { n with type := "start" } :: rest

/-- The mutation `nodes[nodes.length - 1].type = "end"`. -/
def setLastTypeEnd : List NodeSpec → List NodeSpec
  | [] => []
  | [n] => [{ n with type := "end" }]
  | n :: m :: rest => n :: setLastTypeEnd (m :: rest)

/-- The test `nodes.some((node) => node.type === t)`. -/
def hasType (ns : List NodeSpec) (t : String) : Bool :=
  ns.any (fun n => n.type == t)

/-- Terminal enforcement: force the first node to `start` when no start
exists, then force the last node to `end` when no end exists (the end
check sees the possibly-updated array). -/
def enforceTerminals (ns : List NodeSpec) : List NodeSpec :=
  let ns1 := if hasType ns "start" then ns else setHeadTypeStart ns
  if hasType ns1 "end" then ns1 else setLastTypeEnd ns1

/-- The connectivity-fallback chain: edges `nodes[i] → nodes[i+1]` with ids
`edge-{source}-{target}-{i+1}`. -/
def chainEdges : Nat → List NodeSpec → List EdgeSpec
  | _, [] => []
  | _, [_] => []
  | i, a :: b :: rest =>
    { id := "edge-" ++ a.id ++ "-" ++ b.id ++ "-" ++ toString (i + 1)
      source := a.id, target := b.id, label := "", condition := "" }
      :: chainEdges (i + 1) (b :: rest)

/-- The repair body of `normalizeFlowchart`, applied to a schema-accepted
document. -/
def normalizeParsed (parsed : ParsedFlowchart) (prompt : String)
    (fallbackPalette : RawPalette) : Flowchart :=
  let palette := normalizePalette parsed.palette fallbackPalette
  let nodes0 := (repairNodes parsed).1
  let edges0 := repairPreChainEdges parsed
  let nodes := enforceTerminals nodes0
  let edges := if edges0.isEmpty then chainEdges 0 nodes else edges0
  { title := parsed.title, summary := parsed.summary, rationale := parsed.rationale
    suggestions := parsed.suggestions, palette := palette, nodes := nodes
    edges := edges, sourcePrompt := prompt }

/-- The function `normalizeFlowchart(rawFlowchart, prompt, fallbackPalette = DEFAULT_PALETTE)`;
`none` models the `ZodError` thrown by `flowchartSchema.parse`. -/
def normalizeFlowchart (rawFlowchart : RawFlowchart) (prompt : String)
    (fallbackPalette : RawPalette := defaultRawPalette) : Option Flowchart :=
  (parseFlowchart rawFlowchart).map
    (fun parsed => normalizeParsed parsed prompt fallbackPalette)

/-! ### Client layout helpers (`src/src/components/FlowNode.jsx`) -/

/-- The table `NODE_DIMENSIONS` base width/height per node type (with the `process`
default for unknown kinds, as in `getNodeDimensions`). -/
def getNodeDimensions (kind : String) : Nat × Nat :=
  if kind == "start" then (250, 130)
  else if kind == "process" then (250, 140)
  else if kind == "decision" then (240, 240)
  else if kind == "data" then (260, 150)
  else if kind == "subprocess" then (250, 150)
  else if kind == "end" then (250, 130)
  else if kind == "actor" then (250, 145)
  else if kind == "document" then (255, 155)
  else (250, 140)

/-- JS `Math.max(1, Math.ceil(len / 24))` and friends: ceiling division on `Nat`. -/
def ceilDiv (len q : Nat) : Nat := (len + q - 1) / q

/-- The text payload of a node (`String(payload.label || "")` etc.). -/
structure NodePayload where
  label : Option String
  details : Option String
  notes : Option String
deriving DecidableEq, Repr

/-- The function `estimateNodeDimensions(kind, payload)`: base size per type, extra
height for estimated lines beyond 5, type-specific floors, and a final
clamp to 420×560. -/
def estimateNodeDimensions (kind : String) (payload : NodePayload) : Nat × Nat :=
  let base := getNodeDimensions kind
  let label := payload.label.getD ""
  let details := payload.details.getD ""
  let notes := payload.notes.getD ""
  let labelLines := max 1 (ceilDiv label.length 24)
  let detailLines := ceilDiv details.length 42
  let noteLines := ceilDiv notes.length 44
  let estimatedLines := labelLines + detailLines + noteLines
  let extraLines := estimatedLines - 5
  let width0 := base.1
  let height0 := base.2 + extraLines * 18
  let width1 := if kind == "decision" then max width0 (280 + extraLines * 12) else width0
  let height1 := if kind == "decision" then max height0 (280 + extraLines * 24) else height0
  let width2 := if kind == "data" then max width1 (280 + (detailLines - 3) * 10) else width1
  let width3 := if kind == "actor" then max width2 270 else width2
  let height2 := if kind == "actor" then height1 + 8 else height1
  let width4 := if kind == "document" then max width3 270 else width3
  let height3 := if kind == "document" then height2 + 8 else height2
  (min width4 420, min height3 560)

/-- A React Flow node as consumed by the layout helpers: the fields
`getNodeSize` consults, in its precedence order.  The size sources are
kept numeric (`toNumber` is the identity on finite numbers). -/
structure RFNode where
  id : String
  dataKind : Option String
  dataSizeWidth : Option ℚ
  dataSizeHeight : Option ℚ
  width : Option ℚ
  height : Option ℚ
  styleWidth : Option ℚ
  styleHeight : Option ℚ
deriving DecidableEq, Repr

/-- An edge as consumed by the layout helpers. -/
structure REdge where
  id : String
  source : String
  target : String
deriving DecidableEq, Repr

/-- An edge after layout post-processing (`markerEnd` arrowhead attached). -/
structure REdgeOut where
  id : String
  source : String
  target : String
  markerEndArrowClosed : Bool
deriving DecidableEq, Repr

/-- The function `getNodeSize`: `data.size.{width,height} ?? node.{width,height} ??
style.{width,height} ?? base dimensions` for the node's kind. -/
def getNodeSize (node : RFNode) : ℚ × ℚ :=
  let dims := getNodeDimensions (node.dataKind.getD "process")
  let configuredWidth := node.dataSizeWidth.getD (node.width.getD (node.styleWidth.getD dims.1))
  let configuredHeight := node.dataSizeHeight.getD (node.height.getD (node.styleHeight.getD dims.2))
  (configuredWidth, configuredHeight)

/-- A node after placement: top-left position plus its resolved size
(`{...node, sourcePosition, targetPosition, width, height, position}`);
for a layouted node `getNodeSize` resolves to these same width/height
values, which the bounding-box computation reads back. -/
structure PlacedNode where
  id : String
  sourcePosition : String
  targetPosition : String
  width : ℚ
  height : ℚ
  x : ℚ
  y : ℚ
deriving DecidableEq, Repr

/-- The function `normalizePositions(nodes, margin = 20)`: translate so min x and min y
are each ≥ the margin — a pure shift, never a rescale. -/
def normalizePositions (nodes : List PlacedNode) (margin : ℚ := 20) : List PlacedNode :=
  match nodes with
  | [] => nodes
  | first :: rest =>
    let minX := rest.foldl (fun acc n => min acc n.x) first.x
    let minY := rest.foldl (fun acc n => min acc n.y) first.y
    let shiftX := if minX < margin then margin - minX else 0
    let shiftY := if minY < margin then margin - minY else 0
    if shiftX == 0 && shiftY == 0 then nodes
    else nodes.map (fun n => { n with x := n.x + shiftX, y := n.y + shiftY })

/-- The function `getBoundingArea`: axis-aligned bounding-box area of the layouted
nodes; `none` models the `Number.POSITIVE_INFINITY` returned for an empty
list. -/
def getBoundingArea (nodes : List PlacedNode) : Option ℚ :=
  match nodes with
  | [] => none
  | first :: rest =>
    let init := (first.x, first.y, first.x + first.width, first.y + first.height)
    let box := rest.foldl
      (fun acc n =>
        (min acc.1 n.x, min acc.2.1 n.y,
         max acc.2.2.1 (n.x + n.width), max acc.2.2.2 (n.y + n.height)))
      init
    some (max 1 (box.2.2.1 - box.1) * max 1 (box.2.2.2 - box.2.1))

/-- The options `runDagreLayout` passes to dagre. -/
structure LayoutOptions where
  direction : String
  ranksep : Nat
  nodesep : Nat
  marginx : Nat
  marginy : Nat
deriving DecidableEq, Repr

/-- The injected layered-graph placement capability: from the dagre
options, the sized nodes and the edges, a center position per node id
(`dagre.layout` followed by `graph.node(id)`). -/
def Place : Type :=
  LayoutOptions → List (String × ℚ × ℚ) → List (String × String) → String → ℚ × ℚ

/-- The value computed by one `runDagreLayout` call. -/
structure RunResult where
  nodes : List PlacedNode
  edges : List REdgeOut
  direction : String
  area : Option ℚ
deriving DecidableEq, Repr

/-- The function `runDagreLayout(nodes, edges, options)` with the placement routine
abstracted as `place`: place every node, convert centers to top-left
corners using each node's own size, shift via `normalizePositions`,
attach arrowhead markers, and record the bounding-box area. -/
def runDagreLayout (place : Place) (nodes : List RFNode) (edges : List REdge)
    (options : LayoutOptions) : RunResult :=
  let centers := place options (nodes.map (fun n => (n.id, getNodeSize n)))
    (edges.map (fun e => (e.source, e.target)))
  let horizontal := options.direction == "LR"
  let layoutedNodes := nodes.map (fun node =>
    let c := centers node.id
    let size := getNodeSize node
    { id := node.id
      sourcePosition := if horizontal then "right" else "bottom"
      targetPosition := if horizontal then "left" else "top"
      width := size.1, height := size.2
      x := c.1 - size.1 / 2, y := c.2 - size.2 / 2 })
  let nextNodes := normalizePositions layoutedNodes
  let nextEdges := edges.map (fun e =>
    { id := e.id, source := e.source, target := e.target, markerEndArrowClosed := true })
  { nodes := nextNodes, edges := nextEdges, direction := options.direction
    area := getBoundingArea nextNodes }

/-- The JS comparator `(a, b) => a.area - b.area` deciding "a sorts no
later than b" (`none` is the infinite area; two infinities compare as a
tie, as the NaN comparator result leaves order unchanged). -/
def areaLe (a b : Option ℚ) : Bool :=
  match a, b with
  | some x, some y => decide (x ≤ y)
  | some _, none => true
  | none, some _ => false
  | none, none => true

/-- Strict version of `areaLe`. -/
def areaLt (a b : Option ℚ) : Bool :=
  match a, b with
  | some x, some y => decide (x < y)
  | some _, none => true
  | none, some _ => false
  | none, none => false

/-- Stable insertion on the area key (a later element is placed after the
equal elements already in place, as a stable `Array.prototype.sort`). -/
def insertByArea (x : RunResult) : List RunResult → List RunResult
  | [] => [x]
  | y :: ys => if areaLe x.area y.area then x :: y :: ys else y :: insertByArea x ys

/-- Stable sort by area, modelling `candidates.sort((a, b) => a.area - b.area)`. -/
def jsSortByArea : List RunResult → List RunResult
  | [] => []
  | x :: xs => insertByArea x (jsSortByArea xs)

/-- The `{nodes, edges}` value `getLayoutedElements` returns. -/
structure LayoutOut where
  nodes : List PlacedNode
  edges : List REdgeOut
deriving DecidableEq, Repr

/-- The function `getLayoutedElements(nodes, edges, direction = "TB")`: in `COMPACT`
mode run the placement twice (TB then LR) with the tighter spacing and
keep the first element of the area-sorted candidates; otherwise one run
with the regular spacing. -/
def getLayoutedElements (place : Place) (nodes : List RFNode) (edges : List REdge)
    (direction : String := "TB") : LayoutOut :=
  if direction == "COMPACT" then
    let compactCandidates := ["TB", "LR"].map (fun candidateDirection =>
      runDagreLayout place nodes edges
        { direction := candidateDirection, ranksep := 45, nodesep := 30
          marginx := 20, marginy := 20 })
    match jsSortByArea compactCandidates with
    | best :: _ => { nodes := best.nodes, edges := best.edges }
    | [] => { nodes := [], edges := [] }
  else
    let safeDirection := if direction == "LR" then "LR" else "TB"
    let result := runDagreLayout place nodes edges
      { direction := safeDirection, ranksep := 100, nodesep := 80
        marginx := 30, marginy := 30 }
    { nodes := result.nodes, edges := result.edges }

/-! ### Generation / refinement pipeline (`src/server/flowchartService.js`) -/

/-- The "Clinical Signal" domain palette. -/
def CLINICAL_PALETTE : Palette :=
  { name := "Clinical Signal"
    canvas := "#edf8fb", panel := "#ffffff", text := "#1b2b40"
    mutedText := "#5b6f87", edge := "#2c728f", accent := "#168aad"
    nodeColors :=
      { start := "#2a9d8f", process := "#3a86ff", decision := "#ff9f1c"
        data := "#f28482", subprocess := "#6f5cc2", «end» := "#d7263d"
        actor := "#00a896", document := "#e9c46a" } }

/-- The "Executive Deck" domain palette. -/
def EXECUTIVE_PALETTE : Palette :=
  { name := "Executive Deck"
    canvas := "#f4f6fb", panel := "#ffffff", text := "#1f2a3d"
    mutedText := "#60708d", edge := "#4f5d95", accent := "#1f7a8c"
    nodeColors :=
      { start := "#2e8b57", process := "#2d6cdf", decision := "#f4a259"
        data := "#b56576", subprocess := "#7a5ad9", «end» := "#d1495b"
        actor := "#1f9e89", document := "#d4a72c" } }

/-- The "Classroom Focus" domain palette. -/
def CLASSROOM_PALETTE : Palette :=
  { name := "Classroom Focus"
    canvas := "#f9f6ef", panel := "#fffefb", text := "#2c2a3a"
    mutedText := "#69657e", edge := "#5f6f9c", accent := "#2a9d8f"
    nodeColors :=
      { start := "#2b9348", process := "#4361ee", decision := "#ff8800"
        data := "#ef476f", subprocess := "#8e7dbe", «end» := "#d90429"
        actor := "#1ea896", document := "#e9c46a" } }

/-- The table `DOMAIN_PALETTES`: ordered keyword-set → palette entries. -/
def DOMAIN_PALETTES : List (List String × Palette) :=
  [ (["health", "medical", "hospital", "patient", "triage"], CLINICAL_PALETTE)
  , (["finance", "bank", "business", "sales", "customer", "onboarding"], EXECUTIVE_PALETTE)
  , (["education", "student", "classroom", "learning", "school"], CLASSROOM_PALETTE) ]

/-- The function `pickPaletteFromPrompt`: first entry whose keyword occurs in the
lower-cased prompt wins; otherwise the default palette. -/
def pickPaletteFromPrompt (prompt : String) : Palette :=
  let lowerPrompt := jsToLower prompt
  match DOMAIN_PALETTES.find? (fun entry => entry.1.any (fun word => jsIncludes lowerPrompt word)) with
  | some entry => entry.2
  | none => DEFAULT_PALETTE

/-- The function `fallbackFlowchart(prompt, detailLevel, audience)`: the deterministic
5-node linear-with-one-cycle template substituted on the generation path. -/
def fallbackFlowchart (prompt detailLevel audience : String) : Flowchart :=
  let shortPrompt := if prompt.length > 120 then jsTake prompt 117 ++ "..." else prompt
  let summary := String.intercalate " "
    [ "This fallback diagram was generated because the model response was incomplete."
    , "It provides a safe baseline flow that you can edit directly in React Flow." ]
  { title := "Fallback Flowchart"
    summary := summary
    rationale := "Fallback logic keeps the system usable even when model output is malformed, while preserving explainability-first structure."
    suggestions :=
      [ "Use precise domain language in your prompt."
      , "Specify target audience and depth."
      , "Mention decision branches explicitly." ]
    palette := pickPaletteFromPrompt prompt
    nodes :=
      [ { id := "problem-definition", label := "Define Problem", type := "start"
          details := shortPrompt
          notes := if audience.isEmpty then "" else "Audience: " ++ audience }
      , { id := "requirements", label := "Extract Requirements", type := "process"
          details := "Identify goals, constraints, and success metrics."
          notes := "Detail level: " ++ detailLevel }
      , { id := "modeling", label := "Model Diagram Logic", type := "subprocess"
          details := "Draft node semantics, decision points, and transitions."
          notes := "Explainability and presentation clarity are prioritized." }
      , { id := "review", label := "Review & Iterate", type := "decision"
          details := "Check correctness, readability, and audience fit."
          notes := "If no, refine structure. If yes, finalize." }
      , { id := "final-diagram", label := "Final Diagram", type := "end"
          details := "Interactive flowchart ready for slides and technical documentation."
          notes := "" } ]
    edges :=
      [ { id := "edge-problem-requirements-1", source := "problem-definition"
          target := "requirements", label := "clarify goal", condition := "" }
      , { id := "edge-requirements-modeling-2", source := "requirements"
          target := "modeling", label := "structure steps", condition := "" }
      , { id := "edge-modeling-review-3", source := "modeling"
          target := "review", label := "validate", condition := "" }
      , { id := "edge-review-modeling-4", source := "review"
          target := "modeling", label := "No", condition := "needs improvement" }
      , { id := "edge-review-final-5", source := "review"
          target := "final-diagram", label := "Yes", condition := "ready" } ]
    sourcePrompt := prompt }

/-- The function `refinedFallback(currentFlowchart, followUpPrompt)`: keep the existing
diagram, append a refinement note to the summary, replace the rationale
with the failure note, and add a suggestion (previous ones capped at 5). -/
def refinedFallback (currentFlowchart : Flowchart) (followUpPrompt : String) : Flowchart :=
  { currentFlowchart with
    summary := currentFlowchart.summary ++ " Refinement applied: " ++ followUpPrompt
    rationale := "Model refinement failed, so the system preserved the existing diagram with a traceable refinement note."
    suggestions := currentFlowchart.suggestions.take 5
      ++ ["Try a shorter follow-up prompt with one change request at a time."] }

/-- The message of the error `getGroqClient` throws when the access
credential is absent. -/
def missingKeyMessage : String := "Missing GROQ_API_KEY in environment."

/-- Outcome of the model step (`runModel`): a parsed JSON candidate
document, or an error message. -/
def ModelStep : Type := Except String RawFlowchart

/-- The function `generateFlowchartFromPrompt`: `getGroqClient` throws before the
`try` when the credential is absent; inside it the model candidate is
repaired, and every failure whose message does not contain
`"Missing GROQ_API_KEY"` is absorbed by the fallback template.  A
`ZodError` thrown by `normalizeFlowchart` is such a failure (its message
never contains the credential marker). -/
def generateFlowchartFromPrompt (apiKey : Option String) (modelStep : ModelStep)
    (prompt : String) (detailLevel : String := "balanced") (audience : String := "") :
    Except String Flowchart :=
  match apiKey with
  | none => Except.error missingKeyMessage
  | some _ =>
    let fallbackPalette := pickPaletteFromPrompt prompt
    match modelStep with
    | Except.ok parsed =>
      match normalizeFlowchart parsed prompt (paletteToRaw fallbackPalette) with
      | some doc => Except.ok doc
      | none => Except.ok (fallbackFlowchart prompt detailLevel audience)
    | Except.error message =>
      if jsIncludes message "Missing GROQ_API_KEY" then Except.error message
      else Except.ok (fallbackFlowchart prompt detailLevel audience)

/-- A raw refine request body as fed to `refineInputSchema`. -/
structure RawRefineInput where
  title : Option String
  summary : Option String
  rationale : Option String
  suggestions : Option (List String)
  nodes : List RawNode
  edges : List RawEdge
  palette : Option RawPalette
  sourcePrompt : Option String
deriving DecidableEq, Repr

/-- A refine request after `refineInputSchema.parse`. -/
structure ParsedRefineInput where
  title : String
  summary : String
  rationale : String
  suggestions : List String
  nodes : List NodeSpec
  edges : List ParsedEdge
  palette : Option RawPalette
  sourcePrompt : String
deriving DecidableEq, Repr

/-- The schema check `refineInputSchema.parse`: defaulted title/summary/rationale/
suggestions/sourcePrompt, the flowchart schema's node and edge
validators, and an optional palette. -/
def parseRefineInput (raw : RawRefineInput) : Option ParsedRefineInput :=
  let title := raw.title.getD "Refined Flowchart"
  let summary := raw.summary.getD "Refined flowchart based on follow-up instructions."
  let rationale := raw.rationale.getD "Refinement preserves structure and applies the requested update."
  let suggestions := raw.suggestions.getD []
  let sourcePrompt := raw.sourcePrompt.getD ""
  if title.length ≤ 140 && summary.length ≤ 1000 && rationale.length ≤ 1200
      && suggestions.length ≤ 8
      && suggestions.all (fun s => 1 ≤ s.length && s.length ≤ 160)
      && sourcePrompt.length ≤ 5000 then
    match raw.nodes.mapM parseNode, raw.edges.mapM parseEdge, parseOptPalette raw.palette with
    | some nodes, some edges, some palette =>
      if 2 ≤ nodes.length && nodes.length ≤ 35 && edges.length ≤ 90 then
        some { title, summary, rationale, suggestions, nodes, edges, palette, sourcePrompt }
      else none
    | _, _, _ => none
  else none

/-- A parsed node written back as the plain object `{...parsedCurrent}`
hands to `flowchartSchema.parse`. -/
def nodeToRaw (n : NodeSpec) : RawNode :=
  { id := n.id, label := n.label, type := n.type
    details := some n.details, notes := some n.notes }

/-- A parsed edge written back as a plain object. -/
def edgeToRaw (e : ParsedEdge) : RawEdge :=
  { id := e.id, source := some e.source, target := some e.target
    label := some e.label, condition := some e.condition }

/-- The `{...parsedCurrent, summary, rationale}` object the refine path
re-feeds into `normalizeFlowchart`. -/
def refineToRaw (pc : ParsedRefineInput) (summary rationale : String) : RawFlowchart :=
  { title := pc.title, summary := summary, rationale := rationale
    suggestions := some pc.suggestions
    nodes := pc.nodes.map nodeToRaw, edges := pc.edges.map edgeToRaw
    palette := pc.palette }

/-- The `safeCurrent` computation of `refineFlowchartFromPrompt`: pad the
summary/rationale up to schema length, then re-normalize the current
document with its own normalized palette as the fallback. -/
def refineSafeCurrent (pc : ParsedRefineInput) : Option Flowchart :=
  let summary :=
    if 10 ≤ (jsTrim pc.summary).length then pc.summary
    else "Refined flowchart based on follow-up instructions."
  let rationale :=
    if 10 ≤ (jsTrim pc.rationale).length then pc.rationale
    else "Refinement preserves structure and applies the requested update."
  normalizeFlowchart (refineToRaw pc summary rationale)
    (jsOrStr pc.sourcePrompt "")
    (paletteToRaw (normalizePalette pc.palette))

/-- The function `refineFlowchartFromPrompt`: parse and re-normalize the current
flowchart (failures here propagate — they happen before the `try`), check
the credential, run the model step, and absorb non-credential failures by
`refinedFallback` on the preserved current document. -/
def refineFlowchartFromPrompt (apiKey : Option String) (modelStep : ModelStep)
    (currentFlowchart : RawRefineInput) (followUpPrompt : String) :
    Except String Flowchart :=
  match parseRefineInput currentFlowchart with
  | none => Except.error "refineInputSchema rejected the current flowchart."
  | some parsedCurrent =>
    match refineSafeCurrent parsedCurrent with
    | none => Except.error "flowchartSchema rejected the current flowchart."
    | some safeCurrent =>
      match apiKey with
      | none => Except.error missingKeyMessage
      | some _ =>
        match modelStep with
        | Except.ok parsed =>
          match normalizeFlowchart parsed
              (jsOrStr safeCurrent.sourcePrompt followUpPrompt)
              (paletteToRaw safeCurrent.palette) with
          | some doc => Except.ok doc
          | none => Except.ok (refinedFallback safeCurrent followUpPrompt)
        | Except.error message =>
          if jsIncludes message "Missing GROQ_API_KEY" then Except.error message
          else Except.ok (refinedFallback safeCurrent followUpPrompt)

/-! ### Palette lemmas -/

/-- A present color field whose value fails the hex pattern. -/
def badColorField (v : Option String) : Bool :=
  match v with
  | some s => !isHexColor s
  | none => false

/-- Some slot of a raw `nodeColors` object is present and non-hex. -/
def rawNodeColorsHasInvalid (nc : RawNodeColors) : Bool :=
  badColorField nc.start || badColorField nc.process || badColorField nc.decision
  || badColorField nc.data || badColorField nc.subprocess || badColorField nc.«end»
  || badColorField nc.actor || badColorField nc.document

/-- Some color field of a raw palette candidate is present and fails the
6-digit hex pattern. -/
def rawPaletteHasInvalidColor (raw : RawPalette) : Bool :=
  badColorField raw.canvas || badColorField raw.panel || badColorField raw.text
  || badColorField raw.mutedText || badColorField raw.edge || badColorField raw.accent
  || (match raw.nodeColors with
      | none => false
      | some nc => rawNodeColorsHasInvalid nc)

theorem badColorField_false_of_parse {v : Option String} {d c : String}
    (h : parseColorField v d = some c) : badColorField v = false := by
  cases v with
  | none => rfl
  | some s =>
    simp only [parseColorField] at h
    by_cases hx : isHexColor s
    · simp [badColorField, hx]
    · simp [hx] at h

theorem parseNodeColors_ok {nc : RawNodeColors} {out : NodeColors}
    (h : parseNodeColors nc = some out) : rawNodeColorsHasInvalid nc = false := by
  unfold parseNodeColors at h
  split at h
  · rename_i hs hpr hde hda hsu hen hac hdoc
    simp [rawNodeColorsHasInvalid, badColorField_false_of_parse hs,
      badColorField_false_of_parse hpr, badColorField_false_of_parse hde,
      badColorField_false_of_parse hda, badColorField_false_of_parse hsu,
      badColorField_false_of_parse hen, badColorField_false_of_parse hac,
      badColorField_false_of_parse hdoc]
  · exact absurd h (by simp)

theorem parsePalette_colors_ok {raw : RawPalette} {p : Palette}
    (h : parsePalette raw = some p) : rawPaletteHasInvalidColor raw = false := by
  unfold parsePalette at h
  split at h
  · exact absurd h (by simp)
  · split at h
    · rename_i ncRaw hncEq x7 x6 x5 x4 x3 x2 x1 x0 nm cv pn tx mt ed ac ncv
        hname hcanvas hpanel htext hmuted hedge haccent hnc
      simp [rawPaletteHasInvalidColor, hncEq,
        badColorField_false_of_parse hcanvas, badColorField_false_of_parse hpanel,
        badColorField_false_of_parse htext, badColorField_false_of_parse hmuted,
        badColorField_false_of_parse hedge, badColorField_false_of_parse haccent,
        parseNodeColors_ok hnc]
    · exact absurd h (by simp)

/-- A candidate with some invalid color field fails `safeParse` outright. -/
theorem parsePalette_none_of_bad {raw : RawPalette}
    (h : rawPaletteHasInvalidColor raw = true) : parsePalette raw = none := by
  cases hp : parsePalette raw with
  | none => rfl
  | some p => rw [parsePalette_colors_ok hp] at h; cases h

/-- Shared helper: on any invalid candidate, `normalizePalette` discards
the whole candidate and substitutes the hardcoded default. -/
theorem normalizePalette_default_of_bad (raw fb : RawPalette)
    (h : rawPaletteHasInvalidColor raw = true) :
    normalizePalette (some raw) fb = DEFAULT_PALETTE := by
  simp only [normalizePalette, Option.getD_some, parsePalette_none_of_bad h]
  rfl

/-! ### Concrete documents used as claim inputs -/

/-- The default palette with `accent` replaced by a non-color. -/
def badAccentRaw : RawPalette :=
  { defaultRawPalette with accent := some "not-a-color" }

/-- A schema-accepted document whose raw node ids are `a-3`, `a`, `a`:
at index 2 the candidate `a` collides, the suffixed candidate `a-3`
collides again with the id recorded at index 0, and is used anyway. -/
def c1Raw : RawFlowchart :=
  { title := "Sample Title", summary := "Summary text ok", rationale := "Rationale text ok"
    suggestions := none
    nodes :=
      [ { id := "a-3", label := "A", type := "process", details := none, notes := none }
      , { id := "a", label := "B", type := "process", details := none, notes := none }
      , { id := "a", label := "C", type := "process", details := none, notes := none } ]
    edges := [], palette := none }

/-- A schema-accepted document whose only `start`-typed node is the last
node, with no `end`-typed node. -/
def c2Raw : RawFlowchart :=
  { title := "Sample Title", summary := "Summary text ok", rationale := "Rationale text ok"
    suggestions := none
    nodes :=
      [ { id := "a", label := "A", type := "process", details := none, notes := none }
      , { id := "b", label := "B", type := "start", details := none, notes := none } ]
    edges := [], palette := none }

/-! ### Claim C1 -/

/-- Claim C1 (code bug, evaluated at the failing input): the repaired
node-id list of the schema-accepted document with raw ids `a-3`, `a`, `a`
is `["a-3", "a", "a-3"]`, which contains a duplicate — the positional
collision suffix does not re-check the used set, so the sanitizer does
not always yield pairwise distinct ids. -/
theorem normalizeFlowchart_duplicate_ids_on_suffix_collision :
    (normalizeFlowchart c1Raw "prompt" defaultRawPalette).map
        (fun d => d.nodes.map NodeSpec.id) = some ["a-3", "a", "a-3"] ∧
    ¬ (["a-3", "a", "a-3"] : List String).Nodup := by
  exact ⟨by decide, by decide⟩

/-! ### Claim C2 -/

/-- Claim C2 (counterexample): repairing a document whose only
`start`-typed node is last and which has no `end`-typed node yields a
document with no `start`-typed node — terminal enforcement overwrites
the lone start with `end`. -/
theorem normalizeFlowchart_start_lost_counterexample :
    (normalizeFlowchart c2Raw "prompt" defaultRawPalette).map
        (fun d => hasType d.nodes "start") = some false ∧
    (normalizeFlowchart c2Raw "prompt" defaultRawPalette).map
        (fun d => d.nodes.map NodeSpec.type) = some ["process", "end"] := by
  exact ⟨by decide, by decide⟩

/-! ### Claim C3 -/

/-- Claim C3: palette normalization is all-or-nothing — whenever at least
one color field of the candidate fails the 6-digit hex pattern, the whole
candidate is discarded and `normalizePalette` returns exactly the
hardcoded default palette. -/
theorem normalizePalette_all_or_nothing (raw fb : RawPalette)
    (h : rawPaletteHasInvalidColor raw = true) :
    normalizePalette (some raw) fb = DEFAULT_PALETTE :=
  normalizePalette_default_of_bad raw fb h

/-- Witness for C3: a candidate equal to the default except
`accent = "not-a-color"` normalizes to exactly the full default palette. -/
theorem normalizePalette_all_or_nothing_witness :
    rawPaletteHasInvalidColor badAccentRaw = true ∧
    normalizePalette (some badAccentRaw) defaultRawPalette = DEFAULT_PALETTE :=
  ⟨by decide, normalizePalette_all_or_nothing badAccentRaw defaultRawPalette (by decide)⟩

/-! ### Repair-pass lemmas -/

theorem assignIdsAux_map_type (index : Nat) (used : List String)
    (idMap : List (String × String)) (ns : List NodeSpec) :
    (assignIdsAux index used idMap ns).1.map NodeSpec.type = ns.map NodeSpec.type := by
  induction ns generalizing index used idMap with
  | nil => rfl
  | cons n rest ih => simp [assignIdsAux, ih]

theorem assignIdsAux_map_frame (index : Nat) (used : List String)
    (idMap : List (String × String)) (ns : List NodeSpec) :
    (assignIdsAux index used idMap ns).1.map (fun n => (n.label, n.details, n.notes))
      = ns.map (fun n => (n.label, n.details, n.notes)) := by
  induction ns generalizing index used idMap with
  | nil => rfl
  | cons n rest ih => simp [assignIdsAux, ih]

theorem setHeadTypeStart_map_frame (ns : List NodeSpec) :
    (setHeadTypeStart ns).map (fun n => (n.label, n.details, n.notes))
      = ns.map (fun n => (n.label, n.details, n.notes)) := by
  cases ns <;> rfl

theorem setLastTypeEnd_map_frame (ns : List NodeSpec) :
    (setLastTypeEnd ns).map (fun n => (n.label, n.details, n.notes))
      = ns.map (fun n => (n.label, n.details, n.notes)) := by
  induction ns with
  | nil => rfl
  | cons n rest ih =>
    cases rest with
    | nil => rfl
    | cons m t => simpa [setLastTypeEnd] using ih

theorem enforceTerminals_map_frame (ns : List NodeSpec) :
    (enforceTerminals ns).map (fun n => (n.label, n.details, n.notes))
      = ns.map (fun n => (n.label, n.details, n.notes)) := by
  unfold enforceTerminals
  by_cases hs : hasType ns "start"
  · simp only [hs, if_true]
    by_cases he : hasType ns "end"
    · simp [he]
    · simp [he, setLastTypeEnd_map_frame]
  · simp only [hs, if_false, Bool.false_eq_true]
    by_cases he : hasType (setHeadTypeStart ns) "end"
    · simp [he, setHeadTypeStart_map_frame]
    · simp [he, setLastTypeEnd_map_frame, setHeadTypeStart_map_frame]

theorem setHeadTypeStart_getElem? (ns : List NodeSpec) (i : Nat) (hi : 0 < i) :
    (setHeadTypeStart ns)[i]? = ns[i]? := by
  cases ns with
  | nil => rfl
  | cons n rest =>
    cases i with
    | zero => exact absurd hi (by simp)
    | succ j => simp [setHeadTypeStart]

theorem setLastTypeEnd_getElem? (ns : List NodeSpec) (i : Nat) (hi : i + 1 < ns.length) :
    (setLastTypeEnd ns)[i]? = ns[i]? := by
  induction ns generalizing i with
  | nil => rfl
  | cons n rest ih =>
    cases rest with
    | nil => simp at hi
    | cons m t =>
      cases i with
      | zero => simp [setLastTypeEnd]
      | succ j =>
        have : j + 1 < (m :: t).length := by simpa using hi
        simpa [setLastTypeEnd] using ih j this

theorem setHeadTypeStart_length (ns : List NodeSpec) :
    (setHeadTypeStart ns).length = ns.length := by
  cases ns <;> rfl

theorem setLastTypeEnd_length (ns : List NodeSpec) :
    (setLastTypeEnd ns).length = ns.length := by
  induction ns with
  | nil => rfl
  | cons n rest ih =>
    cases rest with
    | nil => rfl
    | cons m t => simpa [setLastTypeEnd] using ih

theorem enforceTerminals_getElem?_interior (ns : List NodeSpec) (i : Nat)
    (hi : 0 < i) (hilen : i + 1 < ns.length) :
    (enforceTerminals ns)[i]? = ns[i]? := by
  unfold enforceTerminals
  by_cases hs : hasType ns "start"
  · simp only [hs, if_true]
    by_cases he : hasType ns "end"
    · simp [he]
    · simp [he, setLastTypeEnd_getElem? ns i hilen]
  · simp only [hs, if_false, Bool.false_eq_true]
    by_cases he : hasType (setHeadTypeStart ns) "end"
    · simp [he, setHeadTypeStart_getElem? ns i hi]
    · have hlen : i + 1 < (setHeadTypeStart ns).length := by
        simpa [setHeadTypeStart_length] using hilen
      simp [he, setLastTypeEnd_getElem? _ i hlen, setHeadTypeStart_getElem? ns i hi]

/-- The condition under which forcing the last node to `end` erases every
start: the list's only `start`-typed position is the last one. -/
def startOnlyAtLastTypes : List String → Bool
  | [] => false
  | [t] => t == "start"
  | t :: u :: rest => (t != "start") && startOnlyAtLastTypes (u :: rest)

theorem hasType_eq_map_types (l : List NodeSpec) (t : String) :
    hasType l t = (l.map NodeSpec.type).any (fun x => x == t) := by
  induction l with
  | nil => rfl
  | cons n rest ih =>
    simp only [hasType, List.map_cons, List.any_cons] at *
    rw [ih]

theorem setLastTypeEnd_hasEnd (ns : List NodeSpec) (h : ns ≠ []) :
    hasType (setLastTypeEnd ns) "end" = true := by
  induction ns with
  | nil => exact absurd rfl h
  | cons n rest ih =>
    cases rest with
    | nil => simp [setLastTypeEnd, hasType]
    | cons m t =>
      have := ih (by simp)
      simp only [setLastTypeEnd, hasType, List.any_cons] at *
      simp [this]

theorem setLastTypeEnd_start_survives (ns : List NodeSpec)
    (hs : hasType ns "start" = true)
    (hol : startOnlyAtLastTypes (ns.map NodeSpec.type) = false) :
    hasType (setLastTypeEnd ns) "start" = true := by
  induction ns with
  | nil => simp [hasType] at hs
  | cons n rest ih =>
    cases rest with
    | nil =>
      simp only [hasType, List.any_cons, List.any_nil, Bool.or_false] at hs
      simp [startOnlyAtLastTypes, hs] at hol
    | cons m t =>
      by_cases hn : n.type == "start"
      · simp [setLastTypeEnd, hasType, hn]
      · simp only [List.map_cons, startOnlyAtLastTypes, Bool.and_eq_false_iff] at hol
        rcases hol with hol | hol
        · simp only [bne_eq_false_iff_eq, beq_iff_eq] at hol
          exact absurd hol (by simpa using hn)
        · simp only [hasType, List.any_cons] at hs
          rcases (Bool.or_eq_true _ _).mp hs with h1 | h1
          · exact absurd h1 (by simpa using hn)
          · have := ih h1 (by simpa [startOnlyAtLastTypes] using hol)
            simp only [setLastTypeEnd, hasType, List.any_cons] at *
            simp [this]

theorem enforceTerminals_hasEnd (ns : List NodeSpec) (h : ns ≠ []) :
    hasType (enforceTerminals ns) "end" = true := by
  unfold enforceTerminals
  by_cases hs : hasType ns "start"
  · simp only [hs, if_true]
    by_cases he : hasType ns "end"
    · rw [if_pos he]; exact he
    · simp only [he, Bool.false_eq_true, if_false]
      exact setLastTypeEnd_hasEnd ns h
  · simp only [hs, if_false, Bool.false_eq_true]
    by_cases he : hasType (setHeadTypeStart ns) "end"
    · rw [if_pos he]; exact he
    · simp only [he, Bool.false_eq_true, if_false]
      refine setLastTypeEnd_hasEnd _ ?_
      cases ns with
      | nil => exact absurd rfl h
      | cons n rest => simp [setHeadTypeStart]

theorem enforceTerminals_hasStart (ns : List NodeSpec) (hlen : 2 ≤ ns.length)
    (h : ¬ (hasType ns "end" = false ∧ startOnlyAtLastTypes (ns.map NodeSpec.type) = true)) :
    hasType (enforceTerminals ns) "start" = true := by
  unfold enforceTerminals
  by_cases hs : hasType ns "start"
  · simp only [hs, if_true]
    by_cases he : hasType ns "end"
    · simpa [he] using hs
    · simp only [he, Bool.false_eq_true, if_false]
      refine setLastTypeEnd_start_survives ns hs ?_
      cases hol : startOnlyAtLastTypes (ns.map NodeSpec.type) with
      | false => rfl
      | true => exact absurd ⟨by simpa using he, hol⟩ h
  · simp only [hs, if_false, Bool.false_eq_true]
    obtain ⟨n, rest, hns⟩ : ∃ n rest, ns = n :: rest := by
      cases ns with
      | nil => simp at hlen
      | cons n rest => exact ⟨n, rest, rfl⟩
    obtain ⟨m, t, hrest⟩ : ∃ m t, rest = m :: t := by
      cases rest with
      | nil => rw [hns] at hlen; simp at hlen
      | cons m t => exact ⟨m, t, rfl⟩
    subst hns hrest
    by_cases he : hasType (setHeadTypeStart (n :: m :: t)) "end"
    · rw [if_pos he]
      simp [setHeadTypeStart, hasType]
    · rw [if_neg he]
      simp [setHeadTypeStart, setLastTypeEnd, hasType]

/-! ### Claim C2 (amended) -/

/-- Claim C2 (amended): every repaired document has at least one
`end`-typed node; and it has at least one `start`-typed node except in
the case the counterexample exhibits — when the input has no `end`-typed
node and its only `start`-typed node is the last one, terminal
enforcement overwrites that lone start. -/
theorem normalizeParsed_terminals (parsed : ParsedFlowchart) (prompt : String)
    (fb : RawPalette) (hlen : 2 ≤ parsed.nodes.length) :
    hasType (normalizeParsed parsed prompt fb).nodes "end" = true ∧
    (¬ (hasType parsed.nodes "end" = false ∧
        startOnlyAtLastTypes (parsed.nodes.map NodeSpec.type) = true) →
      hasType (normalizeParsed parsed prompt fb).nodes "start" = true) := by
  have hnodes : (normalizeParsed parsed prompt fb).nodes
      = enforceTerminals (repairNodes parsed).1 := rfl
  have hmap : (repairNodes parsed).1.map NodeSpec.type = parsed.nodes.map NodeSpec.type :=
    assignIdsAux_map_type 0 [] [] parsed.nodes
  have hlenEq : (repairNodes parsed).1.length = parsed.nodes.length := by
    have := congrArg List.length hmap
    simpa using this
  have hlen' : 2 ≤ (repairNodes parsed).1.length := by rw [hlenEq]; exact hlen
  have hat : ∀ t, hasType (repairNodes parsed).1 t = hasType parsed.nodes t := by
    intro t
    rw [hasType_eq_map_types, hasType_eq_map_types, hmap]
  constructor
  · rw [hnodes]
    refine enforceTerminals_hasEnd _ ?_
    intro hnil
    rw [hnil] at hlen'
    simp at hlen'
  · intro h
    rw [hnodes]
    refine enforceTerminals_hasStart _ hlen' ?_
    rw [hat, hmap]
    exact h

/-- Witness for the amended C2 at a concrete input: a two-node document
typed `process`, `start` with an `end`-typed node present keeps both
terminals after repair. -/
def c2WitnessParsed : ParsedFlowchart :=
  { title := "Sample Title", summary := "Summary text ok", rationale := "Rationale text ok"
    suggestions := []
    nodes :=
      [ { id := "a", label := "A", type := "start", details := "", notes := "" }
      , { id := "b", label := "B", type := "end", details := "", notes := "" } ]
    edges := [], palette := none }

theorem normalizeParsed_terminals_witness :
    2 ≤ c2WitnessParsed.nodes.length ∧
    hasType (normalizeParsed c2WitnessParsed "p" defaultRawPalette).nodes "end" = true ∧
    hasType (normalizeParsed c2WitnessParsed "p" defaultRawPalette).nodes "start" = true :=
  ⟨by decide,
    (normalizeParsed_terminals c2WitnessParsed "p" defaultRawPalette (by decide)).1,
    (normalizeParsed_terminals c2WitnessParsed "p" defaultRawPalette (by decide)).2
      (by decide)⟩

/-! ### Claim C10 -/

theorem assignIdsAux_length (index : Nat) (used : List String)
    (idMap : List (String × String)) (ns : List NodeSpec) :
    (assignIdsAux index used idMap ns).1.length = ns.length := by
  have := congrArg List.length (assignIdsAux_map_frame index used idMap ns)
  simpa using this

theorem enforceTerminals_length (ns : List NodeSpec) :
    (enforceTerminals ns).length = ns.length := by
  have := congrArg List.length (enforceTerminals_map_frame ns)
  simpa using this

/-- Claim C10: repair is frame-preserving on nodes — the repaired node
list has the same length and order as the parsed input node list, every
node keeps its label, details and notes, and the type is unchanged at
every interior position (only the first and last node can have their type
forced by terminal enforcement; ids are reassigned by sanitization). -/
theorem normalizeParsed_node_frame (parsed : ParsedFlowchart) (prompt : String)
    (fb : RawPalette) :
    (normalizeParsed parsed prompt fb).nodes.map (fun n => (n.label, n.details, n.notes))
      = parsed.nodes.map (fun n => (n.label, n.details, n.notes)) ∧
    (normalizeParsed parsed prompt fb).nodes.length = parsed.nodes.length ∧
    (∀ i, 0 < i → i + 1 < parsed.nodes.length →
      ((normalizeParsed parsed prompt fb).nodes[i]?).map NodeSpec.type
        = (parsed.nodes[i]?).map NodeSpec.type) := by
  have hnodes : (normalizeParsed parsed prompt fb).nodes
      = enforceTerminals (repairNodes parsed).1 := rfl
  have hlen : (repairNodes parsed).1.length = parsed.nodes.length :=
    assignIdsAux_length 0 [] [] parsed.nodes
  refine ⟨?_, ?_, ?_⟩
  · rw [hnodes, enforceTerminals_map_frame]
    exact assignIdsAux_map_frame 0 [] [] parsed.nodes
  · rw [hnodes, enforceTerminals_length, hlen]
  · intro i hi hilen
    rw [hnodes, enforceTerminals_getElem?_interior _ i hi (by rw [hlen]; exact hilen)]
    have := congrArg (fun l => l[i]?) (assignIdsAux_map_type 0 [] [] parsed.nodes)
    simpa [List.getElem?_map] using this

/-- A three-node parsed document with a distinctive interior node. -/
def c10WitnessParsed : ParsedFlowchart :=
  { title := "Sample Title", summary := "Summary text ok", rationale := "Rationale text ok"
    suggestions := []
    nodes :=
      [ { id := "First Step!", label := "A", type := "process", details := "d1", notes := "n1" }
      , { id := "mid", label := "B", type := "decision", details := "d2", notes := "n2" }
      , { id := "last", label := "C", type := "process", details := "d3", notes := "n3" } ]
    edges := [], palette := none }

/-- Witness for C10 at a concrete three-node document:
frames are preserved and the middle node keeps its type. -/
theorem normalizeParsed_node_frame_witness :
    ((normalizeParsed c10WitnessParsed "p" defaultRawPalette).nodes.map
        (fun n => (n.label, n.details, n.notes))
      = c10WitnessParsed.nodes.map (fun n => (n.label, n.details, n.notes))) ∧
    ((normalizeParsed c10WitnessParsed "p" defaultRawPalette).nodes[1]?).map NodeSpec.type
      = (c10WitnessParsed.nodes[1]?).map NodeSpec.type :=
  ⟨(normalizeParsed_node_frame c10WitnessParsed "p" defaultRawPalette).1,
    (normalizeParsed_node_frame c10WitnessParsed "p" defaultRawPalette).2.2 1
      (by decide) (by decide)⟩

/-! ### Claim C5 -/

theorem chainEdges_length (i : Nat) (ns : List NodeSpec) :
    (chainEdges i ns).length = ns.length - 1 := by
  induction ns generalizing i with
  | nil => rfl
  | cons a rest ih =>
    cases rest with
    | nil => rfl
    | cons b t =>
      have := ih (i + 1)
      simp only [chainEdges, List.length_cons] at *
      omega

/-- Claim C5: when the edge list is empty after remapping and dropping,
the repaired document's edges are exactly the linear chain over its nodes
in document order — `n-1` edges for `n` nodes. -/
theorem normalizeParsed_chain_fallback (parsed : ParsedFlowchart) (prompt : String)
    (fb : RawPalette) (h : repairPreChainEdges parsed = []) :
    (normalizeParsed parsed prompt fb).edges
      = chainEdges 0 (normalizeParsed parsed prompt fb).nodes ∧
    (normalizeParsed parsed prompt fb).edges.length
      = (normalizeParsed parsed prompt fb).nodes.length - 1 := by
  have hedges : (normalizeParsed parsed prompt fb).edges
      = chainEdges 0 (enforceTerminals (repairNodes parsed).1) := by
    simp [normalizeParsed, h]
  have hnodes : (normalizeParsed parsed prompt fb).nodes
      = enforceTerminals (repairNodes parsed).1 := rfl
  refine ⟨by rw [hedges, hnodes], ?_⟩
  rw [hedges, hnodes, chainEdges_length]

/-- The spec's concrete connectivity-fallback example: nodes `a`, `b`,
`c` and zero edges. -/
def c5Parsed : ParsedFlowchart :=
  { title := "Sample Title", summary := "Summary text ok", rationale := "Rationale text ok"
    suggestions := []
    nodes :=
      [ { id := "a", label := "A", type := "process", details := "", notes := "" }
      , { id := "b", label := "B", type := "process", details := "", notes := "" }
      , { id := "c", label := "C", type := "process", details := "", notes := "" } ]
    edges := [], palette := none }

/-- Witness for C5: the `[a, b, c]`, zero-edge document repairs to
exactly `a→b`, `b→c`, in that order. -/
theorem normalizeParsed_chain_fallback_witness :
    repairPreChainEdges c5Parsed = [] ∧
    (normalizeParsed c5Parsed "p" defaultRawPalette).edges
      = chainEdges 0 (normalizeParsed c5Parsed "p" defaultRawPalette).nodes ∧
    (normalizeParsed c5Parsed "p" defaultRawPalette).edges
      = [ { id := "edge-a-b-1", source := "a", target := "b", label := "", condition := "" }
        , { id := "edge-b-c-2", source := "b", target := "c", label := "", condition := "" } ] :=
  ⟨by decide,
    (normalizeParsed_chain_fallback c5Parsed "p" defaultRawPalette (by decide)).1,
    by decide⟩

/-! ### Claim C9 -/

/-- Claim C9: for every node type and every label/details/notes content,
the estimated dimensions satisfy width ≤ 420 and height ≤ 560. -/
theorem estimateNodeDimensions_clamped (kind : String) (payload : NodePayload) :
    (estimateNodeDimensions kind payload).1 ≤ 420 ∧
    (estimateNodeDimensions kind payload).2 ≤ 560 := by
  unfold estimateNodeDimensions
  exact ⟨Nat.min_le_right _ _, Nat.min_le_right _ _⟩

/-! ### Claim C6 -/

theorem areaLt_eq_not_areaLe (a b : Option ℚ) : areaLt b a = !(areaLe a b) := by
  cases a <;> cases b <;> simp [areaLe, areaLt, ← decide_not, not_le]

/-- Claim C6: Compact mode runs the placement routine exactly twice —
top-to-bottom and left-to-right, both with rank-separation 45,
node-separation 30 and margins 20 — and returns the run with the smaller
bounding-box area, keeping the top-to-bottom run on ties. -/
theorem getLayoutedElements_compact (place : Place) (nodes : List RFNode)
    (edges : List REdge) :
    getLayoutedElements place nodes edges "COMPACT" =
      (let tb := runDagreLayout place nodes edges
          { direction := "TB", ranksep := 45, nodesep := 30, marginx := 20, marginy := 20 }
       let lr := runDagreLayout place nodes edges
          { direction := "LR", ranksep := 45, nodesep := 30, marginx := 20, marginy := 20 }
       if areaLt lr.area tb.area then { nodes := lr.nodes, edges := lr.edges }
       else { nodes := tb.nodes, edges := tb.edges }) := by
  by_cases h : areaLe
      (runDagreLayout place nodes edges
        { direction := "TB", ranksep := 45, nodesep := 30, marginx := 20, marginy := 20 }).area
      (runDagreLayout place nodes edges
        { direction := "LR", ranksep := 45, nodesep := 30, marginx := 20, marginy := 20 }).area
  · simp [getLayoutedElements, jsSortByArea, insertByArea, h, areaLt_eq_not_areaLe]
  · simp [getLayoutedElements, jsSortByArea, insertByArea, h, areaLt_eq_not_areaLe]

/-! ### Claim C7 -/

/-- A minimal valid refine request: two `process` nodes, everything else
defaulted. -/
def c7Current : RawRefineInput :=
  { title := none, summary := none, rationale := none, suggestions := none
    nodes :=
      [ { id := "a", label := "A", type := "process", details := none, notes := none }
      , { id := "b", label := "B", type := "process", details := none, notes := none } ]
    edges := [], palette := none, sourcePrompt := none }

/-- The value `c7Current` after `refineInputSchema.parse`. -/
def c7ParsedCurrent : ParsedRefineInput :=
  { title := "Refined Flowchart"
    summary := "Refined flowchart based on follow-up instructions."
    rationale := "Refinement preserves structure and applies the requested update."
    suggestions := []
    nodes :=
      [ { id := "a", label := "A", type := "process", details := "", notes := "" }
      , { id := "b", label := "B", type := "process", details := "", notes := "" } ]
    edges := [], palette := none, sourcePrompt := "" }

/-- The re-normalized current document (`safeCurrent`) for `c7Current`. -/
def c7Safe : Flowchart :=
  { title := "Refined Flowchart"
    summary := "Refined flowchart based on follow-up instructions."
    rationale := "Refinement preserves structure and applies the requested update."
    suggestions := []
    palette := DEFAULT_PALETTE
    nodes :=
      [ { id := "a", label := "A", type := "start", details := "", notes := "" }
      , { id := "b", label := "B", type := "end", details := "", notes := "" } ]
    edges := [ { id := "edge-a-b-1", source := "a", target := "b", label := "", condition := "" } ]
    sourcePrompt := "" }

/-- Claim C7 (counterexample): a refinement call whose model step fails
for a non-credential reason reports success but returns the preserved
current diagram (nodes `a`, `b`), not the Fallback Synthesizer's fixed
5-node define→extract→model→review→final template — that template is
produced only on the generation path. -/
theorem refine_fallback_is_not_template :
    (refineFlowchartFromPrompt (some "k") (Except.error "boom") c7Current
        "add a branch").toOption.map (fun d => d.nodes.map NodeSpec.id) = some ["a", "b"] ∧
    (fallbackFlowchart "add a branch" "balanced" "").nodes.map NodeSpec.id
      = ["problem-definition", "requirements", "modeling", "review", "final-diagram"] :=
  ⟨by decide, by decide⟩

/-- Claim C7 (amended): for every refinement call whose current document
passes validation and whose model step fails with a message not
indicating missing credentials, the pipeline reports success and returns
`refinedFallback` of the preserved current document — the existing
diagram with a human-readable refinement note — rather than the 5-node
template. -/
theorem refine_absorbs_noncredential_failures (key message followUpPrompt : String)
    (cur : RawRefineInput) (pc : ParsedRefineInput) (safeCurrent : Flowchart)
    (hmsg : jsIncludes message "Missing GROQ_API_KEY" = false)
    (hparse : parseRefineInput cur = some pc)
    (hsafe : refineSafeCurrent pc = some safeCurrent) :
    refineFlowchartFromPrompt (some key) (Except.error message) cur followUpPrompt
      = Except.ok (refinedFallback safeCurrent followUpPrompt) := by
  simp [refineFlowchartFromPrompt, hparse, hsafe, hmsg]

/-- Witness for the amended C7 at the concrete input `c7Current`. -/
theorem refine_absorbs_noncredential_failures_witness :
    refineFlowchartFromPrompt (some "k") (Except.error "boom") c7Current "add a branch"
      = Except.ok (refinedFallback c7Safe "add a branch") :=
  refine_absorbs_noncredential_failures "k" "boom" "add a branch" c7Current
    c7ParsedCurrent c7Safe (by decide) (by decide) (by decide)

/-! ### Claim C8 -/

/-- Claim C8: missing-credential failures are fatal on the generation
path — with no credential present the error propagates before any model
call, and a model failure whose message contains the missing-credential
marker is re-thrown; in neither case is fallback content substituted. -/
theorem generate_missing_credential_fatal (modelStep : ModelStep)
    (prompt detailLevel audience message key : String)
    (hmsg : jsIncludes message "Missing GROQ_API_KEY" = true) :
    generateFlowchartFromPrompt none modelStep prompt detailLevel audience
        = Except.error missingKeyMessage ∧
    generateFlowchartFromPrompt (some key) (Except.error message) prompt detailLevel audience
        = Except.error message :=
  ⟨rfl, by simp [generateFlowchartFromPrompt, hmsg]⟩

/-- Witness for C8 at concrete inputs. -/
theorem generate_missing_credential_fatal_witness :
    jsIncludes missingKeyMessage "Missing GROQ_API_KEY" = true ∧
    generateFlowchartFromPrompt none (Except.error "boom") "prompt text" "balanced" ""
        = Except.error missingKeyMessage ∧
    generateFlowchartFromPrompt (some "k") (Except.error missingKeyMessage)
        "prompt text" "balanced" "" = Except.error missingKeyMessage :=
  ⟨by decide,
    (generate_missing_credential_fatal (Except.error "boom") "prompt text" "balanced" ""
      missingKeyMessage "k" (by decide)).1,
    (generate_missing_credential_fatal (Except.error "boom") "prompt text" "balanced" ""
      missingKeyMessage "k" (by decide)).2⟩

/-! ### Claim C4 -/

/-- A present palette must validate for the document to parse at all. -/
theorem parseFlowchart_palette_valid {raw : RawFlowchart} {parsed : ParsedFlowchart}
    (h : parseFlowchart raw = some parsed) {p : RawPalette} (hp : raw.palette = some p) :
    ∃ q, parsePalette p = some q := by
  unfold parseFlowchart at h
  split at h
  · split at h
    · rename_i hnodesEq hedgesEq hpalEq hcond
      rw [hp] at hpalEq
      unfold parseOptPalette at hpalEq
      cases hq : parsePalette p with
      | none => simp [hq] at hpalEq
      | some q => exact ⟨q, rfl⟩
    · exact absurd h (by simp)
  · exact absurd h (by simp)

/-- A valid two-node document carrying the invalid `badAccentRaw` palette. -/
def c4Raw : RawFlowchart :=
  { title := "Sample Title", summary := "Summary text ok", rationale := "Rationale text ok"
    suggestions := none
    nodes :=
      [ { id := "a", label := "A", type := "process", details := none, notes := none }
      , { id := "b", label := "B", type := "process", details := none, notes := none } ]
    edges := [], palette := some badAccentRaw }

/-- The "Clinical Signal" palette as a raw candidate (a valid, non-default
fallback palette). -/
def clinicalRaw : RawPalette := paletteToRaw CLINICAL_PALETTE

/-- Claim C4 (counterexample): with the document palette present but
invalid and a valid non-default fallback palette supplied, the repaired
document's palette is not that fallback — the repair call fails schema
validation and yields no document at all, and `normalizePalette` itself
falls straight to the hardcoded default, skipping the fallback. -/
theorem palette_chain_counterexample :
    normalizeFlowchart c4Raw "p" clinicalRaw = none ∧
    normalizePalette (some badAccentRaw) clinicalRaw = DEFAULT_PALETTE ∧
    DEFAULT_PALETTE ≠ CLINICAL_PALETTE :=
  ⟨by decide, by decide, by decide⟩

/-- Claim C4 (amended): the fallback palette is consulted only when the
document's palette is absent — absent with a valid fallback gives the
fallback's parse; absent with an invalid fallback gives the hardcoded
default; a present-but-invalid candidate makes `normalizePalette` return
the hardcoded default regardless of the fallback, and at the repair level
such a document fails schema validation and produces no repaired
document. -/
theorem palette_preference_chain (fb raw : RawPalette) :
    (∀ p, parsePalette fb = some p → normalizePalette none fb = p) ∧
    (parsePalette fb = none → normalizePalette none fb = DEFAULT_PALETTE) ∧
    (rawPaletteHasInvalidColor raw = true →
      normalizePalette (some raw) fb = DEFAULT_PALETTE) ∧
    (∀ rawDoc : RawFlowchart, rawDoc.palette = some raw →
      rawPaletteHasInvalidColor raw = true →
      ∀ prompt fb2, normalizeFlowchart rawDoc prompt fb2 = none) := by
  refine ⟨?_, ?_, ?_, ?_⟩
  · intro p hp
    simp [normalizePalette, hp]
  · intro hp
    simp only [normalizePalette, Option.getD_none, hp]
    rfl
  · intro h
    exact normalizePalette_default_of_bad raw fb h
  · intro rawDoc hpal hbad prompt fb2
    unfold normalizeFlowchart
    cases hpf : parseFlowchart rawDoc with
    | none => rfl
    | some parsed =>
      obtain ⟨q, hq⟩ := parseFlowchart_palette_valid hpf hpal
      rw [parsePalette_none_of_bad hbad] at hq
      cases hq

/-- Witness for the amended C4 at concrete palettes and a concrete
document. -/
theorem palette_preference_chain_witness :
    normalizePalette none clinicalRaw = CLINICAL_PALETTE ∧
    normalizePalette (some badAccentRaw) clinicalRaw = DEFAULT_PALETTE ∧
    normalizeFlowchart c4Raw "p" clinicalRaw = none :=
  ⟨(palette_preference_chain clinicalRaw badAccentRaw).1 CLINICAL_PALETTE (by decide),
    (palette_preference_chain clinicalRaw badAccentRaw).2.2.1 (by decide),
    (palette_preference_chain clinicalRaw badAccentRaw).2.2.2 c4Raw rfl (by decide)
      "p" clinicalRaw⟩

end FlowState
